import Mathlib

/-!
Verification development for a momentum candlestick-pattern backtesting
strategy.  The Python sources (pattern detectors, volatility indicators,
entry/exit rule composers, and the bar-by-bar backtest engine) are shallowly
embedded: prices are rationals, a bar series is a function from bar index to
a row of OHLCV data together with the indicator columns the engine reads
(ATR, historical volatility, volatility regime — computed upstream by the
indicator batch pass and consumed positionally), and the stateful engine is
explicit state passing over an `EngineState` record.
-/

/-- Volatility regime bucket; stored in the dataframe column
`Volatility_Regime` as 0 (low), 1 (normal), 2 (high). -/
inductive Regime where
  | low
  | normal
  | high
deriving DecidableEq, Repr

/-- One row of the bar dataframe: the OHLCV columns plus the indicator
columns that the strategy functions read (`ATR`, `Historical_Volatility`,
`Volatility_Regime`).  Field names follow the dataframe column names. -/
structure Row where
  Open : ℚ
  High : ℚ
  Low : ℚ
  Close : ℚ
  Volume : ℚ
  ATR : ℚ
  Historical_Volatility : ℚ
  Volatility_Regime : Regime
deriving DecidableEq, Repr

namespace CandlestickPatterns

/-- `CandlestickPatterns.is_engulfing`: returns
(is_bullish_engulfing, is_bearish_engulfing). -/
def is_engulfing (df : ℕ → Row) (idx : ℕ) : Bool × Bool :=
  if idx < 1 then (false, false)
  else
    let curr_open := (df idx).Open
    let curr_close := (df idx).Close
    let prev_open := (df (idx - 1)).Open
    let prev_close := (df (idx - 1)).Close
    (decide (prev_close < prev_open ∧ curr_open < curr_close ∧
             curr_open < prev_close ∧ prev_open < curr_close),
     decide (prev_open < prev_close ∧ curr_close < curr_open ∧
             prev_close < curr_open ∧ curr_close < prev_open))

/-- `CandlestickPatterns.is_doji`. -/
def is_doji (df : ℕ → Row) (idx : ℕ) (threshold : ℚ := 1/10) : Bool :=
  let body_size := |(df idx).Close - (df idx).Open|
  let high_low_range := (df idx).High - (df idx).Low
  decide (body_size ≤ high_low_range * threshold)

/-- `CandlestickPatterns.is_hammer`. -/
def is_hammer (df : ℕ → Row) (idx : ℕ) : Bool :=
  let body_size := |(df idx).Close - (df idx).Open|
  let lower_wick := min (df idx).Open (df idx).Close - (df idx).Low
  let upper_wick := (df idx).High - max (df idx).Open (df idx).Close
  decide (2 * body_size < lower_wick ∧ upper_wick < (1/10) * body_size)

/-- `CandlestickPatterns.is_shooting_star`. -/
def is_shooting_star (df : ℕ → Row) (idx : ℕ) : Bool :=
  let body_size := |(df idx).Close - (df idx).Open|
  let lower_wick := min (df idx).Open (df idx).Close - (df idx).Low
  let upper_wick := (df idx).High - max (df idx).Open (df idx).Close
  decide (2 * body_size < upper_wick ∧ lower_wick < (1/10) * body_size)

end CandlestickPatterns

namespace MomentumPatterns

/-- `MomentumPatterns.calculate_momentum_score`: weighted blend of 5-bar and
20-bar simple returns, clamped to [-1, 1]; 0 before 20 bars of history. -/
def calculate_momentum_score (df : ℕ → Row) (idx : ℕ) : ℚ :=
  if idx < 20 then 0
  else
    let short_term_return :=
      ((df idx).Close - (df (idx - 5)).Close) / (df (idx - 5)).Close
    let medium_term_return :=
      ((df idx).Close - (df (idx - 20)).Close) / (df (idx - 20)).Close
    let momentum_score := (7/10) * short_term_return + (3/10) * medium_term_return
    max (min momentum_score 1) (-1)

end MomentumPatterns

namespace VolatilityIndicators

/-- `VolatilityParams.minimum_atr_value` (default): ATR floor preventing
zero/negative stop distances. -/
def minimum_atr_value : ℚ := 1/1000

/-- `VolatilityParams.volatility_lookback` (default). -/
def volatility_lookback : ℕ := 20

/-- The `regime_multipliers` dict in `get_dynamic_stops`: the regime column
holds exactly the keys 0/1/2, modelled by the `Regime` enum. -/
def regime_multipliers : Regime → ℚ
  | .low => 3/2
  | .normal => 1
  | .high => 3/4

/-- Stop distance computed by `get_dynamic_stops` at an in-range index:
`max(ATR[idx], minimum_atr_value) * (base_multiplier * regime_multipliers[regime])`. -/
def stop_distance (df : ℕ → Row) (idx : ℕ) (base_multiplier : ℚ) : ℚ :=
  let current_atr := max (df idx).ATR minimum_atr_value
  let adjusted_multiplier := base_multiplier * regime_multipliers (df idx).Volatility_Regime
  current_atr * adjusted_multiplier

/-- `VolatilityIndicators.get_dynamic_stops`: `(None, None)` (here `none`)
when `idx < 1`, else `(stop_distance, stop_distance * 2)`. -/
def get_dynamic_stops (df : ℕ → Row) (idx : ℕ) (base_multiplier : ℚ := 2) :
    Option (ℚ × ℚ) :=
  if idx < 1 then none
  else some (stop_distance df idx base_multiplier,
             stop_distance df idx base_multiplier * 2)

/-- The `regime_adjustments` dict in `get_volatility_adjusted_position_size`. -/
def regime_adjustments : Regime → ℚ
  | .low => 6/5
  | .normal => 1
  | .high => 4/5

/-- Mean of `Historical_Volatility` over the slice `[idx - lookback, idx)`,
as `df['Historical_Volatility'].iloc[idx-lookback:idx].mean()`. -/
def avg_vol (df : ℕ → Row) (idx : ℕ) : ℚ :=
  (((List.range volatility_lookback).map
    (fun k => (df (idx - volatility_lookback + k)).Historical_Volatility)).sum) /
    (volatility_lookback : ℚ)

/-- `VolatilityIndicators.get_volatility_adjusted_position_size`: base size
scaled by trailing-average over floored current volatility and the regime
adjustment, then clamped to `[min_size, max_size]`. -/
def get_volatility_adjusted_position_size (df : ℕ → Row) (idx : ℕ)
    (base_position : ℚ := 1) (min_size : ℚ := 1/4) (max_size : ℚ := 2) : ℚ :=
  if idx < volatility_lookback then base_position
  else
    let current_vol := (df idx).Historical_Volatility
    let vol_quot := avg_vol df idx / max current_vol (1/1000)
    let adjusted_position :=
      base_position * vol_quot * regime_adjustments (df idx).Volatility_Regime
    max (min adjusted_position max_size) min_size

end VolatilityIndicators

/-- Position side; the Python code uses the strings 'long'/'short'. -/
inductive PosType where
  | long
  | short
deriving DecidableEq, Repr

namespace ExitRules

/-- The local `trail_level` computed in `ExitRules.calculate_trailing_stop`
before clamping: `Close ∓ stop_distance * 1.5` (long subtracts, short adds),
with `stop_distance` taken from `get_dynamic_stops` at the default base
multiplier 2. -/
def trail_level (df : ℕ → Row) (idx : ℕ) (t : PosType) : ℚ :=
  match t with
  | .long => (df idx).Close - VolatilityIndicators.stop_distance df idx 2 * (3/2)
  | .short => (df idx).Close + VolatilityIndicators.stop_distance df idx 2 * (3/2)

/-- `ExitRules.calculate_trailing_stop`: `entry_price` when `idx < 1`, else
the trail level clamped at `entry_price * 0.99` (long; lower bound) or
`entry_price * 1.01` (short; upper bound). -/
def calculate_trailing_stop (df : ℕ → Row) (idx : ℕ) (position_type : PosType)
    (entry_price : ℚ) : ℚ :=
  if idx < 1 then entry_price
  else
    match position_type with
    | .long => max (trail_level df idx .long) (entry_price * (99/100))
    | .short => min (trail_level df idx .short) (entry_price * (101/100))

end ExitRules

namespace EntryRules

/-- `EntryRules.calculate_position_size`: volatility-adjusted base size times
the momentum factor `0.5 + 0.5 * |momentum_score|`. -/
def calculate_position_size (df : ℕ → Row) (idx : ℕ)
    (base_position : ℚ := 1) : ℚ :=
  let momentum_score := |MomentumPatterns.calculate_momentum_score df idx|
  let momentum_factor := 1/2 + momentum_score * (1/2)
  let vol_adjusted_size :=
    VolatilityIndicators.get_volatility_adjusted_position_size df idx base_position
  vol_adjusted_size * momentum_factor

end EntryRules

/-- `exit_reason` of a closed trade. -/
inductive ExitReason where
  | Stop
  | Target
  | Signal
deriving DecidableEq, Repr

/-- The `Position` dataclass of the backtest engine.  `entry_time` is the
bar index (the engine passes `df.index[idx]`; index position is the
addressing scheme throughout). -/
structure Position where
  type : PosType
  entry_price : ℚ
  entry_time : ℕ
  size : ℚ
  stop_loss : ℚ
  take_profit : ℚ
  trailing_stop : ℚ
  trade_id : ℕ
deriving DecidableEq, Repr

/-- The trade dict appended to `self.trades` by `_close_position`. -/
structure Trade where
  id : ℕ
  type : PosType
  entry_time : ℕ
  entry_price : ℚ
  exit_time : ℕ
  exit_price : ℚ
  size : ℚ
  pnl : ℚ
  exit_reason : ExitReason
deriving DecidableEq, Repr

/-- The mutable fields of `BacktestEngine` reset by `reset`. -/
structure EngineState where
  equity : ℚ
  currentPosition : Option Position
  trades : List Trade
  equityCurve : List ℚ
  tradeCount : ℕ
deriving DecidableEq, Repr

/-- The entry-rules interface the engine consumes (constructor injection in
the Python code).  The signal-details dict returned alongside the two
booleans never influences the engine's decisions and is omitted. -/
structure EntryRulesSig where
  check_entry_signals : (ℕ → Row) → ℕ → Bool × Bool
  calculate_position_size : (ℕ → Row) → ℕ → ℚ → ℚ

/-- The exit-rules interface the engine consumes.  `get_dynamic_stops` is
the engine's entry-time call
`exit_rules.volatility_indicators.get_dynamic_stops(df, idx)`, made only at
`idx ≥ 20` where the concrete implementation always returns a pair. -/
structure ExitRulesSig where
  calculate_trailing_stop : (ℕ → Row) → ℕ → PosType → ℚ → ℚ
  check_exit_signals : (ℕ → Row) → ℕ → PosType → Bool
  get_dynamic_stops : (ℕ → Row) → ℕ → ℚ × ℚ

namespace BacktestEngine

/-- `BacktestEngine.reset`: reinitialize every mutable field. -/
def reset (initial_capital : ℚ) (s : EngineState) : EngineState :=
  { s with
    equity := initial_capital
    currentPosition := none
    trades := []
    equityCurve := []
    tradeCount := 0 }

/-- Realized pnl computed in `_close_position`. -/
def tradePnl (p : Position) (exit_price : ℚ) : ℚ :=
  match p.type with
  | .long => (exit_price - p.entry_price) * p.size
  | .short => (p.entry_price - exit_price) * p.size

/-- The trade record `_close_position` appends to the ledger. -/
def closedTrade (p : Position) (exit_price : ℚ) (exit_time : ℕ)
    (exit_reason : ExitReason) : Trade :=
  { id := p.trade_id
    type := p.type
    entry_time := p.entry_time
    entry_price := p.entry_price
    exit_time := exit_time
    exit_price := exit_price
    size := p.size
    pnl := tradePnl p exit_price
    exit_reason := exit_reason }

/-- `BacktestEngine._close_position`: realize pnl into equity, append the
trade record, clear the position.  (The engine only calls it with an open
position; with none it is the identity.) -/
def closePosition (exit_price : ℚ) (exit_time : ℕ) (exit_reason : ExitReason)
    (s : EngineState) : EngineState :=
  match s.currentPosition with
  | none => s
  | some p =>
    { s with
      equity := s.equity + tradePnl p exit_price
      trades := s.trades ++ [closedTrade p exit_price exit_time exit_reason]
      currentPosition := none }

/-- The `hit_stop` condition of `_check_position_exit`:
long and `Low <= trailing_stop`, or short and `High >= trailing_stop`. -/
def hitStop (df : ℕ → Row) (idx : ℕ) (t : PosType) (trailing_stop : ℚ) : Bool :=
  match t with
  | .long => decide ((df idx).Low ≤ trailing_stop)
  | .short => decide (trailing_stop ≤ (df idx).High)

/-- The `hit_target` condition of `_check_position_exit`:
long and `High >= take_profit`, or short and `Low <= take_profit`. -/
def hitTarget (df : ℕ → Row) (idx : ℕ) (t : PosType) (take_profit : ℚ) : Bool :=
  match t with
  | .long => decide (take_profit ≤ (df idx).High)
  | .short => decide ((df idx).Low ≤ take_profit)

/-- `BacktestEngine._check_position_exit`: update the trailing stop, then
close on `hit_stop or hit_target or should_exit` with exit price
trailing_stop / take_profit / Close and reason Stop / Target / Signal in
that priority order. -/
def checkPositionExit (er : ExitRulesSig) (df : ℕ → Row) (idx : ℕ)
    (s : EngineState) : EngineState :=
  match s.currentPosition with
  | none => s
  | some position =>
    let new_trailing_stop :=
      er.calculate_trailing_stop df idx position.type position.entry_price
    let s' := { s with
      currentPosition := some { position with trailing_stop := new_trailing_stop } }
    let hit_stop := hitStop df idx position.type new_trailing_stop
    let hit_target := hitTarget df idx position.type position.take_profit
    let should_exit := er.check_exit_signals df idx position.type
    if hit_stop || hit_target || should_exit then
      closePosition
        (if hit_stop then new_trailing_stop
         else if hit_target then position.take_profit
         else (df idx).Close)
        idx
        (if hit_stop then .Stop else if hit_target then .Target else .Signal)
        s'
    else s'

/-- `BacktestEngine._open_position`: bump the trade counter and install the
new position with `trailing_stop = stop_loss`. -/
def openPosition (t : PosType) (price : ℚ) (time : ℕ) (size : ℚ)
    (stop_loss : ℚ) (take_profit : ℚ) (s : EngineState) : EngineState :=
  { s with
    tradeCount := s.tradeCount + 1
    currentPosition := some
      { type := t
        entry_price := price
        entry_time := time
        size := size
        stop_loss := stop_loss
        take_profit := take_profit
        trailing_stop := stop_loss
        trade_id := s.tradeCount + 1 } }

/-- `BacktestEngine._check_new_entry`: on a bullish-or-bearish signal
(bullish wins the tie), open at Close with the computed size and the
ATR-derived stop/target distances. -/
def checkNewEntry (en : EntryRulesSig) (er : ExitRulesSig) (df : ℕ → Row)
    (idx : ℕ) (position_size : ℚ) (s : EngineState) : EngineState :=
  let sig := en.check_entry_signals df idx
  let bullish := sig.1
  let bearish := sig.2
  if bullish || bearish then
    let position_type := if bullish then PosType.long else PosType.short
    let entry_price := (df idx).Close
    let size := en.calculate_position_size df idx position_size
    let stops := er.get_dynamic_stops df idx
    let stop_loss := match position_type with
      | .long => entry_price - stops.1
      | .short => entry_price + stops.1
    let take_profit := match position_type with
      | .long => entry_price + stops.2
      | .short => entry_price - stops.2
    openPosition position_type entry_price idx size stop_loss take_profit s
  else s

/-- `BacktestEngine.process_bar`: exit logic if a position is open, else
entry logic once `idx >= 20`; returns the (post-update) equity snapshot. -/
def processBar (en : EntryRulesSig) (er : ExitRulesSig) (df : ℕ → Row)
    (idx : ℕ) (position_size : ℚ) (s : EngineState) : EngineState × ℚ :=
  let s' :=
    if s.currentPosition.isSome then checkPositionExit er df idx s
    else if 20 ≤ idx then checkNewEntry en er df idx position_size s
    else s
  (s', s'.equity)

/-- One iteration of the loop in `BacktestEngine.run`: process the bar and
append the equity snapshot to the equity curve. -/
def runStep (en : EntryRulesSig) (er : ExitRulesSig) (df : ℕ → Row)
    (position_size : ℚ) (s : EngineState) (idx : ℕ) : EngineState :=
  let r := processBar en er df idx position_size s
  { r.1 with equityCurve := r.1.equityCurve ++ [r.2] }

/-- `BacktestEngine.run` over a series of `n` bars: reset all engine state
(whatever it was before, `prior`), then process bars 0 .. n-1 in order. -/
def run (en : EntryRulesSig) (er : ExitRulesSig) (df : ℕ → Row)
    (position_size : ℚ) (initial_capital : ℚ) (n : ℕ)
    (prior : EngineState) : EngineState :=
  (List.range n).foldl (runStep en er df position_size)
    (reset initial_capital prior)

/-- The results summary dict built by `_generate_results`. -/
structure RunResults where
  initial_capital : ℚ
  final_equity : ℚ
  total_return : ℚ
  trades : List Trade
  equity_curve : List ℚ
  trade_count : ℕ
  win_rate : ℚ
  average_trade : ℚ
  max_drawdown : ℚ
deriving DecidableEq, Repr

/-- Per-bar drawdowns `equity − expanding max(equity)`, with `m` the running
maximum so far. -/
def drawdowns (m : ℚ) : List ℚ → List ℚ
  | [] => []
  | e :: rest => (e - max m e) :: drawdowns (max m e) rest

/-- `BacktestEngine._calculate_max_drawdown`: `abs(min(equity − running_max))`.
On an empty curve pandas yields NaN; the engine only builds results after a
run, whose curve has one sample per bar, so the empty case (modelled as 0)
is reached only for an empty bar series. -/
def calculate_max_drawdown (equity_curve : List ℚ) : ℚ :=
  match equity_curve with
  | [] => 0
  | e :: rest => |((drawdowns e (e :: rest)).foldl min 0)|

/-- `BacktestEngine._generate_results`.  The `win_rate` entry divides by
`len(self.trades)`; with an empty ledger Python raises `ZeroDivisionError`,
modelled as `none`. -/
def generateResults (initial_capital : ℚ) (s : EngineState) :
    Option RunResults :=
  if s.trades.length = 0 then none
  else some
    { initial_capital := initial_capital
      final_equity := s.equity
      total_return := (s.equity - initial_capital) / initial_capital
      trades := s.trades
      equity_curve := s.equityCurve
      trade_count := s.trades.length
      win_rate := ((s.trades.filter (fun t => 0 < t.pnl)).length : ℚ) /
        (s.trades.length : ℚ)
      average_trade := ((s.trades.map (fun t => t.pnl)).sum) /
        (s.trades.length : ℚ)
      max_drawdown := calculate_max_drawdown s.equityCurve }

end BacktestEngine

/-! ## Concrete fixtures -/

/-- Row builder for pattern fixtures where only OHLC matters. -/
def mkRow (o h l c : ℚ) : Row :=
  { Open := o, High := h, Low := l, Close := c, Volume := 0, ATR := 0,
    Historical_Volatility := 0, Volatility_Regime := .normal }

/-- Two-bar fixture: bar1 = (O=10, C=8) red, bar2 = (O=7, C=11) green. -/
def engulfBullDf : ℕ → Row :=
  fun i => if i = 0 then mkRow 10 10 8 8 else mkRow 7 11 7 11

/-- Colour-swapped fixture with the same engulfing geometry:
bar1 = (O=8, C=10) green, bar2 = (O=11, C=7) red. -/
def engulfBearDf : ℕ → Row :=
  fun i => if i = 0 then mkRow 8 10 8 10 else mkRow 11 11 7 7

/-! ## Claims -/

/-- Claim C8: `is_engulfing` never returns both booleans true (the two
patterns demand opposite colours of the prior bar), and on the fixture
bar1=(O=10,C=8), bar2=(O=7,C=11) it returns (bullish, not bearish), while
the colour-swapped fixture of the same engulfing geometry returns
(not bullish, bearish). -/
theorem engulfing_exclusive_and_symmetric :
    (∀ (df : ℕ → Row) (idx : ℕ),
      ((CandlestickPatterns.is_engulfing df idx).1 &&
       (CandlestickPatterns.is_engulfing df idx).2) = false) ∧
    CandlestickPatterns.is_engulfing engulfBullDf 1 = (true, false) ∧
    CandlestickPatterns.is_engulfing engulfBearDf 1 = (false, true) := by
  refine ⟨?_, by decide, by decide⟩
  intro df idx
  cases h1 : (CandlestickPatterns.is_engulfing df idx).1 with
  | false => simp [h1]
  | true =>
    cases h2 : (CandlestickPatterns.is_engulfing df idx).2 with
    | false => simp [h1, h2]
    | true =>
      exfalso
      by_cases hidx : idx < 1
      · simp [CandlestickPatterns.is_engulfing, hidx] at h1
      · simp [CandlestickPatterns.is_engulfing, hidx] at h1 h2
        exact absurd h2.1 (not_lt.mpr (le_of_lt h1.1))

/-- Entry rules that never fire a signal, with the concrete position sizing;
used to exercise the engine on bar series where no trade opens. -/
def quietEntryRules : EntryRulesSig :=
  { check_entry_signals := fun _ _ => (false, false)
    calculate_position_size := fun df idx b => EntryRules.calculate_position_size df idx b }

/-- Entry rules whose composed signal is bullish on every bar, with the
concrete position sizing; used to exercise the engine's entry path. -/
def alwaysLongEntryRules : EntryRulesSig :=
  { check_entry_signals := fun _ _ => (true, false)
    calculate_position_size := fun df idx b => EntryRules.calculate_position_size df idx b }

/-- Exit rules built from the concrete trailing-stop and dynamic-stop
implementations; the composed signal exit is held false (scenarios below
are decided by stop/target, for which the signal value is irrelevant). -/
def concreteExitRules : ExitRulesSig :=
  { calculate_trailing_stop := ExitRules.calculate_trailing_stop
    check_exit_signals := fun _ _ _ => false
    get_dynamic_stops := fun df idx =>
      (VolatilityIndicators.get_dynamic_stops df idx).getD (0, 0) }

/-- Fixture for the regime-adjusted stop scenario: ATR = 2, High regime. -/
def stopScenarioDf : ℕ → Row :=
  fun _ => { mkRow 100 100 100 100 with ATR := 2, Volatility_Regime := .high }

/-- Claim C6: at any index with at least one prior bar, the dynamic stop
distance is the floored ATR times the base multiplier times the regime
multiplier (Low 1.5 / Normal 1.0 / High 0.75), the take-profit distance is
exactly twice the stop distance, and the pre-clamp trailing level is
Close ∓ 1.5 × stop distance; with ATR = 2, base 2 and High regime this
gives stop distance 3 and take-profit distance 6. -/
theorem dynamic_stops_formula (df : ℕ → Row) (idx : ℕ) (bm : ℚ)
    (h : 1 ≤ idx) :
    VolatilityIndicators.get_dynamic_stops df idx bm =
      some (max (df idx).ATR (1/1000) * bm *
              (match (df idx).Volatility_Regime with
               | .low => (3 : ℚ)/2 | .normal => 1 | .high => 3/4),
            2 * (max (df idx).ATR (1/1000) * bm *
              (match (df idx).Volatility_Regime with
               | .low => (3 : ℚ)/2 | .normal => 1 | .high => 3/4))) ∧
    ExitRules.trail_level df idx .long =
      (df idx).Close - (3/2) * VolatilityIndicators.stop_distance df idx 2 ∧
    ExitRules.trail_level df idx .short =
      (df idx).Close + (3/2) * VolatilityIndicators.stop_distance df idx 2 ∧
    VolatilityIndicators.get_dynamic_stops stopScenarioDf 1 = some (3, 6) := by
  have hnot : ¬ idx < 1 := by omega
  refine ⟨?_, ?_, ?_, ?_⟩
  · simp only [VolatilityIndicators.get_dynamic_stops,
      VolatilityIndicators.stop_distance, VolatilityIndicators.minimum_atr_value,
      VolatilityIndicators.regime_multipliers, hnot, if_false,
      Option.some.injEq, Prod.mk.injEq]
    cases hreg : (df idx).Volatility_Regime <;> simp only [hreg] <;>
      exact ⟨by ring, by ring⟩
  · simp only [ExitRules.trail_level]
    ring
  · simp only [ExitRules.trail_level]
    ring
  · simp only [VolatilityIndicators.get_dynamic_stops,
      VolatilityIndicators.stop_distance, VolatilityIndicators.minimum_atr_value,
      VolatilityIndicators.regime_multipliers, stopScenarioDf, mkRow]
    norm_num

/-- When no exit condition fires, `_check_position_exit` leaves the position
open with only its trailing stop rewritten. -/
theorem checkPositionExit_stay (er : ExitRulesSig) (df : ℕ → Row) (idx : ℕ)
    (s : EngineState) (p : Position) (hp : s.currentPosition = some p)
    (h1 : BacktestEngine.hitStop df idx p.type
      (er.calculate_trailing_stop df idx p.type p.entry_price) = false)
    (h2 : BacktestEngine.hitTarget df idx p.type p.take_profit = false)
    (h3 : er.check_exit_signals df idx p.type = false) :
    BacktestEngine.checkPositionExit er df idx s =
      { s with currentPosition := some ({ p with
          trailing_stop := er.calculate_trailing_stop df idx p.type p.entry_price }) } := by
  simp [BacktestEngine.checkPositionExit, hp, h1, h2, h3]

/-- Two-bar drop fixture: Close falls from 110 to 100 while ATR stays 1 and
the regime stays Normal; bar lows stay above the recomputed trailing stop. -/
def trailDropDf : ℕ → Row :=
  fun i => if i ≤ 1 then { mkRow 110 111 108 110 with ATR := 1 }
           else { mkRow 100 (201/2) (199/2) 100 with ATR := 1 }

/-- Long position entered at 100 with a distant target, held open across the
`trailDropDf` bars. -/
def trailPos : Position :=
  { type := .long, entry_price := 100, entry_time := 0, size := 1,
    stop_loss := 97, take_profit := 1000, trailing_stop := 97, trade_id := 1 }

/-- Engine state holding `trailPos` open. -/
def trailState : EngineState :=
  { equity := 100000, currentPosition := some trailPos, trades := [],
    equityCurve := [], tradeCount := 1 }

/-- The trailing stop `_check_position_exit` computes on the two bars of
`trailDropDf` for a long entered at 100: 107 on bar 1, then 99 on bar 2. -/
theorem trailDrop_values :
    ExitRules.calculate_trailing_stop trailDropDf 1 .long 100 = 107 ∧
    ExitRules.calculate_trailing_stop trailDropDf 2 .long 100 = 99 := by
  constructor <;>
    · simp only [ExitRules.calculate_trailing_stop, ExitRules.trail_level,
        VolatilityIndicators.stop_distance, VolatilityIndicators.minimum_atr_value,
        VolatilityIndicators.regime_multipliers, trailDropDf, mkRow]
      norm_num

/-- Claim C2 counterexample: the per-bar trailing-stop update is recomputed
from the current Close with no memory of its previous level, so on
`trailDropDf` a long entered at 100 has its trailing stop revised from 107
(bar 1, Close 110) down to 99 (bar 2, Close 100) — a strictly less
favorable level, refuting "never decreases for a long". -/
theorem trailing_stop_loosens :
    ExitRules.calculate_trailing_stop trailDropDf 2 .long 100 <
    ExitRules.calculate_trailing_stop trailDropDf 1 .long 100 := by
  rw [trailDrop_values.1, trailDrop_values.2]
  norm_num

/-- Claim C2 (amended): take_profit is never modified while a position stays
open (the engine rewrites only the trailing stop), and the trailing stop
never crosses `entry_price * 0.99` (long) / `entry_price * 1.01` (short);
the never-loosens part of the original claim is dropped (see
`trailing_stop_loosens`). -/
theorem take_profit_fixed_and_stop_clamped
    (en : EntryRulesSig) (er : ExitRulesSig) (df : ℕ → Row) (idx : ℕ)
    (ps e : ℚ) (s : EngineState) (p p' : Position)
    (hp : s.currentPosition = some p)
    (hp' : ((BacktestEngine.processBar en er df idx ps s).1).currentPosition = some p')
    (hidx : 1 ≤ idx) :
    p'.take_profit = p.take_profit ∧
    p' = { p with
      trailing_stop := er.calculate_trailing_stop df idx p.type p.entry_price } ∧
    e * (99/100) ≤ ExitRules.calculate_trailing_stop df idx .long e ∧
    ExitRules.calculate_trailing_stop df idx .short e ≤ e * (101/100) := by
  have hnot : ¬ idx < 1 := by omega
  have hclampL : e * (99/100) ≤ ExitRules.calculate_trailing_stop df idx .long e := by
    rw [ExitRules.calculate_trailing_stop, if_neg hnot]
    exact le_max_right _ _
  have hclampS : ExitRules.calculate_trailing_stop df idx .short e ≤ e * (101/100) := by
    rw [ExitRules.calculate_trailing_stop, if_neg hnot]
    exact min_le_right _ _
  have hps : (BacktestEngine.processBar en er df idx ps s).1 =
      BacktestEngine.checkPositionExit er df idx s := by
    simp [BacktestEngine.processBar, hp]
  rw [hps] at hp'
  simp only [BacktestEngine.checkPositionExit, hp] at hp'
  split at hp'
  · simp [BacktestEngine.closePosition] at hp'
  · simp only [Option.some.injEq] at hp'
    subst hp'
    exact ⟨rfl, rfl, hclampL, hclampS⟩

/-- Witness: on bar 1 of `trailDropDf` the open long `trailPos` stays open;
its take_profit is untouched, only the trailing stop is rewritten (to 107),
and the clamp bounds hold at entry price 100. -/
theorem take_profit_fixed_witness :
    ({ trailPos with trailing_stop := (107:ℚ) } : Position).take_profit =
      trailPos.take_profit ∧
    ({ trailPos with trailing_stop := (107:ℚ) } : Position) =
      { trailPos with trailing_stop := (concreteExitRules.calculate_trailing_stop trailDropDf 1 trailPos.type trailPos.entry_price) } ∧
    (100:ℚ) * (99/100) ≤ ExitRules.calculate_trailing_stop trailDropDf 1 .long 100 ∧
    ExitRules.calculate_trailing_stop trailDropDf 1 .short 100 ≤ (100:ℚ) * (101/100) := by
  have h107 : ExitRules.calculate_trailing_stop trailDropDf 1 .long 100 = 107 :=
    trailDrop_values.1
  have h107' : concreteExitRules.calculate_trailing_stop trailDropDf 1
      trailPos.type trailPos.entry_price = 107 := h107
  have hstop : BacktestEngine.hitStop trailDropDf 1 PosType.long 107 = false := by
    simp only [BacktestEngine.hitStop, trailDropDf, mkRow, decide_eq_false_iff_not]
    norm_num
  have htgt : BacktestEngine.hitTarget trailDropDf 1 PosType.long 1000 = false := by
    simp only [BacktestEngine.hitTarget, trailDropDf, mkRow, decide_eq_false_iff_not]
    norm_num
  have hstay := checkPositionExit_stay concreteExitRules trailDropDf 1 trailState
    trailPos rfl (by rw [h107']; exact hstop) htgt rfl
  have hps : (BacktestEngine.processBar quietEntryRules concreteExitRules
      trailDropDf 1 (1/10) trailState).1 =
      BacktestEngine.checkPositionExit concreteExitRules trailDropDf 1 trailState := by
    simp [BacktestEngine.processBar, trailState]
  have hp' : ((BacktestEngine.processBar quietEntryRules concreteExitRules
      trailDropDf 1 (1/10) trailState).1).currentPosition =
      some ({ trailPos with trailing_stop := (107:ℚ) }) := by
    rw [hps, hstay]
    simp only [h107']
  exact take_profit_fixed_and_stop_clamped quietEntryRules concreteExitRules
    trailDropDf 1 (1/10) 100 trailState trailPos
    ({ trailPos with trailing_stop := (107:ℚ) }) rfl hp' (by norm_num)

/-- Sum of a constant-valued map over `List.range n`. -/
theorem sum_map_const (c : ℚ) :
    ∀ (n : ℕ) (f : ℕ → ℚ), (∀ k < n, f k = c) →
      ((List.range n).map f).sum = n * c := by
  intro n
  induction n with
  | zero => intro f _; simp
  | succ m ih =>
    intro f h
    rw [List.range_succ, List.map_append, List.sum_append,
      ih f (fun k hk => h k (by omega))]
    simp only [List.map_cons, List.map_nil, List.sum_cons, List.sum_nil, add_zero]
    rw [h m (by omega)]
    push_cast
    ring

/-- The position-size formula in the order the claim words it: the
volatility quotient scales the base size, the result is clamped to the
band, the clamped value is then further scaled by the regime multiplier,
and finally the momentum factor is applied. -/
def claimPositionSize (df : ℕ → Row) (idx : ℕ) (base_position : ℚ) : ℚ :=
  let vol_quot := VolatilityIndicators.avg_vol df idx /
    max (df idx).Historical_Volatility (1/1000)
  let clamped := max (min (base_position * vol_quot) 2) (1/4)
  let sized := clamped *
    VolatilityIndicators.regime_adjustments (df idx).Volatility_Regime
  sized * (1/2 + |MomentumPatterns.calculate_momentum_score df idx| * (1/2))

/-- Flat-price row carrying a given historical volatility and regime. -/
def hvRow (hv : ℚ) (r : Regime) : Row :=
  { mkRow 100 100 100 100 with Historical_Volatility := hv, Volatility_Regime := r }

/-- Volatility-collapse fixture: historical volatility 10 on the first 20
bars, then 1 with the Low regime from bar 20 on; price is flat at 100. -/
def sizeDropDf : ℕ → Row :=
  fun i => if i < 20 then hvRow 10 .normal else hvRow 1 .low

/-- On `sizeDropDf` at bar 20 the trailing-average historical volatility is
10 and the momentum score is 0. -/
theorem sizeDrop_values :
    VolatilityIndicators.avg_vol sizeDropDf 20 = 10 ∧
    MomentumPatterns.calculate_momentum_score sizeDropDf 20 = 0 := by
  constructor
  · rw [VolatilityIndicators.avg_vol]
    rw [sum_map_const 10 VolatilityIndicators.volatility_lookback _
      (fun k hk => by
        have hk' : k < 20 := hk
        simp [VolatilityIndicators.volatility_lookback, sizeDropDf, hvRow, mkRow, hk'])]
    simp [VolatilityIndicators.volatility_lookback]
  · rw [MomentumPatterns.calculate_momentum_score, if_neg (by omega)]
    simp only [sizeDropDf, hvRow, mkRow]
    norm_num

/-- Claim C7 counterexample: at bar 20 of `sizeDropDf` the code clamps after
applying the regime multiplier and returns size 1, while the claim's order
(clamp to the band, then scale by the Low-regime multiplier 1.2) yields 6/5;
the two orderings disagree. -/
theorem position_size_order_counterexample :
    EntryRules.calculate_position_size sizeDropDf 20 1 = 1 ∧
    claimPositionSize sizeDropDf 20 1 = 6/5 ∧
    EntryRules.calculate_position_size sizeDropDf 20 1 ≠
      claimPositionSize sizeDropDf 20 1 := by
  have havg := sizeDrop_values.1
  have hms := sizeDrop_values.2
  have h1 : EntryRules.calculate_position_size sizeDropDf 20 1 = 1 := by
    rw [EntryRules.calculate_position_size,
      VolatilityIndicators.get_volatility_adjusted_position_size]
    rw [if_neg (by simp [VolatilityIndicators.volatility_lookback])]
    rw [hms, havg]
    have hrow : sizeDropDf 20 = hvRow 1 .low := by simp [sizeDropDf]
    rw [hrow]
    simp only [hvRow, mkRow, VolatilityIndicators.regime_adjustments]
    norm_num
  have h2 : claimPositionSize sizeDropDf 20 1 = 6/5 := by
    rw [claimPositionSize, hms, havg]
    have hrow : sizeDropDf 20 = hvRow 1 .low := by simp [sizeDropDf]
    rw [hrow]
    simp only [hvRow, mkRow, VolatilityIndicators.regime_adjustments]
    norm_num
  exact ⟨h1, h2, by rw [h1, h2]; norm_num⟩

/-- Claim C7 (amended): size = (volatility-adjusted size) × momentum factor,
where the momentum factor 0.5 + 0.5|momentum_score| lies in [1/2, 1] and the
volatility adjustment multiplies the base by the trailing-average over
floored-current volatility quotient AND the regime multiplier
(Low 1.2 / Normal 1.0 / High 0.8) before clamping to the [min_size,
max_size] band, so the volatility-adjusted size always lies in the band. -/
theorem position_size_formula (df : ℕ → Row) (idx : ℕ) (b : ℚ)
    (h : 20 ≤ idx) :
    EntryRules.calculate_position_size df idx b =
      max (min (b * (VolatilityIndicators.avg_vol df idx /
          max (df idx).Historical_Volatility (1/1000)) *
        VolatilityIndicators.regime_adjustments (df idx).Volatility_Regime) 2) (1/4) *
      (1/2 + |MomentumPatterns.calculate_momentum_score df idx| * (1/2)) ∧
    1/4 ≤ VolatilityIndicators.get_volatility_adjusted_position_size df idx b ∧
    VolatilityIndicators.get_volatility_adjusted_position_size df idx b ≤ 2 ∧
    1/2 ≤ 1/2 + |MomentumPatterns.calculate_momentum_score df idx| * (1/2) ∧
    1/2 + |MomentumPatterns.calculate_momentum_score df idx| * (1/2) ≤ 1 := by
  have hnot : ¬ idx < VolatilityIndicators.volatility_lookback := by
    simp only [VolatilityIndicators.volatility_lookback]
    omega
  have hms : |MomentumPatterns.calculate_momentum_score df idx| ≤ 1 := by
    rw [MomentumPatterns.calculate_momentum_score, if_neg (by omega)]
    rw [abs_le]
    exact ⟨le_max_right _ _, max_le (min_le_right _ _) (by norm_num)⟩
  refine ⟨?_, ?_, ?_,
    by linarith [abs_nonneg (MomentumPatterns.calculate_momentum_score df idx)],
    by linarith⟩
  · rw [EntryRules.calculate_position_size,
      VolatilityIndicators.get_volatility_adjusted_position_size, if_neg hnot]
  · rw [VolatilityIndicators.get_volatility_adjusted_position_size, if_neg hnot]
    exact le_max_right _ _
  · rw [VolatilityIndicators.get_volatility_adjusted_position_size, if_neg hnot]
    exact max_le (min_le_right _ _) (by norm_num)

/-- Witness: the amended position-size formula evaluated at bar 20 of
`sizeDropDf` with base size 1. -/
theorem position_size_formula_witness :
    EntryRules.calculate_position_size sizeDropDf 20 1 =
      max (min (1 * (VolatilityIndicators.avg_vol sizeDropDf 20 /
          max (sizeDropDf 20).Historical_Volatility (1/1000)) *
        VolatilityIndicators.regime_adjustments (sizeDropDf 20).Volatility_Regime) 2) (1/4) *
      (1/2 + |MomentumPatterns.calculate_momentum_score sizeDropDf 20| * (1/2)) ∧
    1/4 ≤ VolatilityIndicators.get_volatility_adjusted_position_size sizeDropDf 20 1 ∧
    VolatilityIndicators.get_volatility_adjusted_position_size sizeDropDf 20 1 ≤ 2 :=
  ⟨(position_size_formula sizeDropDf 20 1 (by norm_num)).1,
   (position_size_formula sizeDropDf 20 1 (by norm_num)).2.1,
   (position_size_formula sizeDropDf 20 1 (by norm_num)).2.2.1⟩

/-- Claim C9: the simulation is a deterministic function of the bar series
and configuration: `run` resets every mutable engine field first, so two
invocations from arbitrary prior engine states produce identical final
states — in particular identical trade ledgers and equity curves. -/
theorem run_deterministic (en : EntryRulesSig) (er : ExitRulesSig)
    (df : ℕ → Row) (ps ic : ℚ) (n : ℕ) (s1 s2 : EngineState) :
    BacktestEngine.run en er df ps ic n s1 =
      BacktestEngine.run en er df ps ic n s2 ∧
    (BacktestEngine.run en er df ps ic n s1).trades =
      (BacktestEngine.run en er df ps ic n s2).trades ∧
    (BacktestEngine.run en er df ps ic n s1).equityCurve =
      (BacktestEngine.run en er df ps ic n s2).equityCurve := by
  have hreset : BacktestEngine.reset ic s1 = BacktestEngine.reset ic s2 := rfl
  have h : BacktestEngine.run en er df ps ic n s1 =
      BacktestEngine.run en er df ps ic n s2 := by
    rw [BacktestEngine.run, BacktestEngine.run, hreset]
  exact ⟨h, by rw [h], by rw [h]⟩

/-- Claim C10: on a bar where no position is open, `process_bar` runs no
exit logic and appends no trade — so a trade is never opened and closed on
its entry bar; a freshly opened position has trailing_stop equal to its
initial stop_loss and entry_time equal to the entry bar; and the exit path
runs exactly when a position is already open (hence first on the bar after
entry). -/
theorem no_same_bar_exit (en : EntryRulesSig) (er : ExitRulesSig)
    (df : ℕ → Row) (idx : ℕ) (ps : ℚ) (s : EngineState) (p : Position)
    (hflat : s.currentPosition = none)
    (hopen : ((BacktestEngine.processBar en er df idx ps s).1).currentPosition =
      some p) :
    p.trailing_stop = p.stop_loss ∧
    p.entry_time = idx ∧
    ((BacktestEngine.processBar en er df idx ps s).1).trades = s.trades ∧
    ((BacktestEngine.processBar en er df idx ps s).1).equity = s.equity ∧
    (∀ s' : EngineState, s'.currentPosition.isSome →
      (BacktestEngine.processBar en er df idx ps s').1 =
        BacktestEngine.checkPositionExit er df idx s') := by
  have hexit : ∀ s' : EngineState, s'.currentPosition.isSome →
      (BacktestEngine.processBar en er df idx ps s').1 =
        BacktestEngine.checkPositionExit er df idx s' := by
    intro s' h'
    simp [BacktestEngine.processBar, h']
  have hpb : (BacktestEngine.processBar en er df idx ps s).1 =
      if 20 ≤ idx then BacktestEngine.checkNewEntry en er df idx ps s else s := by
    simp [BacktestEngine.processBar, hflat]
  rw [hpb] at hopen ⊢
  by_cases h20 : 20 ≤ idx
  · rw [if_pos h20] at hopen ⊢
    by_cases hsig : ((en.check_entry_signals df idx).1 ||
        (en.check_entry_signals df idx).2) = true
    · simp only [BacktestEngine.checkNewEntry, hsig, if_true,
        BacktestEngine.openPosition, Option.some.injEq] at hopen ⊢
      subst hopen
      exact ⟨rfl, rfl, trivial, trivial, hexit⟩
    · simp [BacktestEngine.checkNewEntry, hsig, hflat] at hopen
  · rw [if_neg h20] at hopen
    rw [hflat] at hopen
    exact absurd hopen (by simp)

/-- Constant bar series: every bar is (O=100, H=101, L=99, C=100), ATR 1. -/
def flatDf : ℕ → Row := fun _ => { mkRow 100 101 99 100 with ATR := 1 }

/-- Fresh engine state (as produced by `reset` with capital 100000). -/
def flatStart : EngineState :=
  { equity := 100000, currentPosition := none, trades := [],
    equityCurve := [], tradeCount := 0 }

/-- The position `_open_position` creates on bar 20 of `flatDf` under
`alwaysLongEntryRules`. -/
def entryWitnessPos : Position :=
  { type := .long
    entry_price := (flatDf 20).Close
    entry_time := 20
    size := alwaysLongEntryRules.calculate_position_size flatDf 20 (1/10)
    stop_loss := (flatDf 20).Close - (concreteExitRules.get_dynamic_stops flatDf 20).1
    take_profit := (flatDf 20).Close + (concreteExitRules.get_dynamic_stops flatDf 20).2
    trailing_stop := (flatDf 20).Close - (concreteExitRules.get_dynamic_stops flatDf 20).1
    trade_id := 1 }

/-- Witness: opening a long on bar 20 of `flatDf` installs a position whose
trailing stop equals its stop_loss and whose entry time is bar 20, while
the ledger and equity are untouched on the entry bar. -/
theorem no_same_bar_exit_witness :
    entryWitnessPos.trailing_stop = entryWitnessPos.stop_loss ∧
    entryWitnessPos.entry_time = 20 ∧
    ((BacktestEngine.processBar alwaysLongEntryRules concreteExitRules flatDf
      20 (1/10) flatStart).1).trades = flatStart.trades ∧
    ((BacktestEngine.processBar alwaysLongEntryRules concreteExitRules flatDf
      20 (1/10) flatStart).1).equity = flatStart.equity := by
  have h := no_same_bar_exit alwaysLongEntryRules concreteExitRules flatDf 20
    (1/10) flatStart entryWitnessPos rfl rfl
  exact ⟨h.1, h.2.1, h.2.2.1, h.2.2.2.1⟩

/-- A bar processed while flat before the warm-up index leaves the engine
state unchanged apart from the equity-curve sample. -/
theorem runStep_warmup (en : EntryRulesSig) (er : ExitRulesSig) (df : ℕ → Row)
    (ps : ℚ) (s : EngineState) (idx : ℕ) (hflat : s.currentPosition = none)
    (hidx : idx < 20) :
    BacktestEngine.runStep en er df ps s idx =
      { s with equityCurve := s.equityCurve ++ [s.equity] } := by
  have h1 : BacktestEngine.processBar en er df idx ps s = (s, s.equity) := by
    simp [BacktestEngine.processBar, hflat, Nat.not_le.mpr hidx]
  simp [BacktestEngine.runStep, h1]

/-- Folding `runStep` over warm-up indices keeps the engine flat with an
empty ledger. -/
theorem foldl_warmup (en : EntryRulesSig) (er : ExitRulesSig) (df : ℕ → Row)
    (ps : ℚ) :
    ∀ (l : List ℕ) (s : EngineState), (∀ i ∈ l, i < 20) →
      s.currentPosition = none → s.trades = [] →
      ((l.foldl (BacktestEngine.runStep en er df ps) s).currentPosition = none ∧
       (l.foldl (BacktestEngine.runStep en er df ps) s).trades = []) := by
  intro l
  induction l with
  | nil => intro s _ h1 h2; exact ⟨h1, h2⟩
  | cons i t ih =>
    intro s hl h1 h2
    rw [List.foldl_cons]
    refine ih _ (fun j hj => hl j (List.mem_cons_of_mem i hj)) ?_ ?_
    · rw [runStep_warmup en er df ps s i h1 (hl i (List.mem_cons_self i t))]
      exact h1
    · rw [runStep_warmup en er df ps s i h1 (hl i (List.mem_cons_self i t))]
      exact h2

/-- Claim C5: a new entry is evaluated only when no position is open and
the bar index is at least 20 — while flat before bar 20, `process_bar`
changes nothing — so a run over at most 20 bars attempts no entry and ends
flat with an empty trade ledger.  (At most one position can be open at any
time: the engine's position slot is a single `Option Position`.) -/
theorem warmup_no_entries (en : EntryRulesSig) (er : ExitRulesSig)
    (df : ℕ → Row) (ps ic : ℚ) (n : ℕ) (prior : EngineState) (h : n ≤ 20) :
    (BacktestEngine.run en er df ps ic n prior).trades = [] ∧
    (BacktestEngine.run en er df ps ic n prior).currentPosition = none ∧
    (∀ idx (s : EngineState), s.currentPosition = none → idx < 20 →
      (BacktestEngine.processBar en er df idx ps s).1 = s) := by
  have hmain := foldl_warmup en er df ps (List.range n)
    (BacktestEngine.reset ic prior)
    (fun i hi => by have := List.mem_range.mp hi; omega) rfl rfl
  refine ⟨hmain.2, hmain.1, ?_⟩
  intro idx s hflat hidx
  simp [BacktestEngine.processBar, hflat, Nat.not_le.mpr hidx]

/-- Witness: a 5-bar run opens nothing and ends flat. -/
theorem warmup_no_entries_witness :
    (BacktestEngine.run quietEntryRules concreteExitRules flatDf (1/10)
      100000 5 flatStart).trades = [] ∧
    (BacktestEngine.run quietEntryRules concreteExitRules flatDf (1/10)
      100000 5 flatStart).currentPosition = none :=
  ⟨(warmup_no_entries quietEntryRules concreteExitRules flatDf (1/10) 100000 5
      flatStart (by norm_num)).1,
   (warmup_no_entries quietEntryRules concreteExitRules flatDf (1/10) 100000 5
      flatStart (by norm_num)).2.1⟩

/-- Realized pnl as a function of the recorded trade fields:
(exit − entry) × size for a long, (entry − exit) × size for a short. -/
def tradePnlFormula (t : Trade) : ℚ :=
  match t.type with
  | .long => (t.exit_price - t.entry_price) * t.size
  | .short => (t.entry_price - t.exit_price) * t.size

/-- Accounting invariant: equity equals initial capital plus the ledger pnl
sum, and every recorded pnl follows the side formula. -/
def accounted (ic : ℚ) (s : EngineState) : Prop :=
  s.equity = ic + ((s.trades.map (fun t => t.pnl)).sum) ∧
  ∀ t ∈ s.trades, t.pnl = tradePnlFormula t

/-- `_close_position` preserves the accounting invariant. -/
theorem closePosition_accounted (ic price : ℚ) (tm : ℕ) (r : ExitReason)
    (s : EngineState) (h : accounted ic s) :
    accounted ic (BacktestEngine.closePosition price tm r s) := by
  rcases hpos : s.currentPosition with _ | p
  · simpa [BacktestEngine.closePosition, hpos] using h
  · obtain ⟨he, hf⟩ := h
    constructor
    · simp only [BacktestEngine.closePosition, hpos, List.map_append,
        List.sum_append, List.map_cons, List.map_nil, List.sum_cons,
        List.sum_nil, add_zero, BacktestEngine.closedTrade]
      rw [he]
      ring
    · intro t ht
      simp only [BacktestEngine.closePosition, hpos, List.mem_append,
        List.mem_singleton] at ht
      rcases ht with ht | ht
      · exact hf t ht
      · subst ht
        cases hty : p.type <;>
          simp [BacktestEngine.closedTrade, tradePnlFormula,
            BacktestEngine.tradePnl, hty]

/-- `_check_position_exit` preserves the accounting invariant. -/
theorem checkPositionExit_accounted (er : ExitRulesSig) (df : ℕ → Row)
    (idx : ℕ) (ic : ℚ) (s : EngineState) (h : accounted ic s) :
    accounted ic (BacktestEngine.checkPositionExit er df idx s) := by
  rcases hpos : s.currentPosition with _ | p
  · simpa [BacktestEngine.checkPositionExit, hpos] using h
  · simp only [BacktestEngine.checkPositionExit, hpos]
    split
    · exact closePosition_accounted ic _ idx _ _ h
    · exact h

/-- `_check_new_entry` preserves the accounting invariant (opening a
position touches neither equity nor the ledger). -/
theorem checkNewEntry_accounted (en : EntryRulesSig) (er : ExitRulesSig)
    (df : ℕ → Row) (idx : ℕ) (ps ic : ℚ) (s : EngineState)
    (h : accounted ic s) :
    accounted ic (BacktestEngine.checkNewEntry en er df idx ps s) := by
  simp only [BacktestEngine.checkNewEntry]
  split
  · exact h
  · exact h

/-- One `run` iteration preserves the accounting invariant. -/
theorem runStep_accounted (en : EntryRulesSig) (er : ExitRulesSig)
    (df : ℕ → Row) (ps ic : ℚ) (s : EngineState) (idx : ℕ)
    (h : accounted ic s) :
    accounted ic (BacktestEngine.runStep en er df ps s idx) := by
  have hp : accounted ic ((BacktestEngine.processBar en er df idx ps s).1) := by
    simp only [BacktestEngine.processBar]
    split
    · exact checkPositionExit_accounted er df idx ic s h
    · split
      · exact checkNewEntry_accounted en er df idx ps ic s h
      · exact h
  exact hp

/-- Folding `run` iterations preserves the accounting invariant. -/
theorem foldl_accounted (en : EntryRulesSig) (er : ExitRulesSig)
    (df : ℕ → Row) (ps ic : ℚ) :
    ∀ (l : List ℕ) (s : EngineState), accounted ic s →
      accounted ic (l.foldl (BacktestEngine.runStep en er df ps) s) := by
  intro l
  induction l with
  | nil => intro s h; exact h
  | cons i t ih =>
    intro s h
    rw [List.foldl_cons]
    exact ih _ (runStep_accounted en er df ps ic s i h)

/-- When `_check_position_exit` leaves the ledger unchanged it leaves the
equity unchanged. -/
theorem checkPositionExit_equity (er : ExitRulesSig) (df : ℕ → Row)
    (idx : ℕ) (s : EngineState)
    (htr : (BacktestEngine.checkPositionExit er df idx s).trades = s.trades) :
    (BacktestEngine.checkPositionExit er df idx s).equity = s.equity := by
  rcases hpos : s.currentPosition with _ | p
  · simp [BacktestEngine.checkPositionExit, hpos]
  · by_cases hc : (BacktestEngine.hitStop df idx p.type
        (er.calculate_trailing_stop df idx p.type p.entry_price) ||
        BacktestEngine.hitTarget df idx p.type p.take_profit ||
        er.check_exit_signals df idx p.type) = true
    · exfalso
      simp only [BacktestEngine.checkPositionExit, hpos, hc, if_true] at htr
      have hlen := congrArg List.length htr
      simp [BacktestEngine.closePosition] at hlen
    · simp [BacktestEngine.checkPositionExit, hpos, hc]

/-- `_check_new_entry` never changes equity. -/
theorem checkNewEntry_equity (en : EntryRulesSig) (er : ExitRulesSig)
    (df : ℕ → Row) (idx : ℕ) (ps : ℚ) (s : EngineState) :
    (BacktestEngine.checkNewEntry en er df idx ps s).equity = s.equity := by
  simp only [BacktestEngine.checkNewEntry]
  split
  · rfl
  · rfl

/-- Claim C4: over any run, final equity minus initial capital equals the
sum of recorded pnl over the ledger; each recorded pnl is
(exit − entry) × size for a long and (entry − exit) × size for a short; and
equity is mutated only at trade-close events: a bar that appends no trade
leaves equity unchanged. -/
theorem equity_accounting (en : EntryRulesSig) (er : ExitRulesSig)
    (df : ℕ → Row) (ps ic : ℚ) (n : ℕ) (prior : EngineState) :
    (BacktestEngine.run en er df ps ic n prior).equity =
      ic + (((BacktestEngine.run en er df ps ic n prior).trades.map
        (fun t => t.pnl)).sum) ∧
    (∀ t ∈ (BacktestEngine.run en er df ps ic n prior).trades,
      t.pnl = tradePnlFormula t) ∧
    (∀ idx (s : EngineState),
      ((BacktestEngine.processBar en er df idx ps s).1).trades = s.trades →
      ((BacktestEngine.processBar en er df idx ps s).1).equity = s.equity) := by
  have hrun : accounted ic (BacktestEngine.run en er df ps ic n prior) :=
    foldl_accounted en er df ps ic (List.range n)
      (BacktestEngine.reset ic prior)
      ⟨by simp [BacktestEngine.reset], by simp [BacktestEngine.reset]⟩
  refine ⟨hrun.1, hrun.2, ?_⟩
  intro idx s htr
  simp only [BacktestEngine.processBar] at htr ⊢
  by_cases hpos : s.currentPosition.isSome = true
  · rw [if_pos hpos] at htr ⊢
    exact checkPositionExit_equity er df idx s htr
  · rw [if_neg hpos] at htr ⊢
    by_cases h20 : 20 ≤ idx
    · rw [if_pos h20]
      exact checkNewEntry_equity en er df idx ps s
    · rw [if_neg h20]

/-- Stop-hit case of `_check_position_exit`: the trade closes at the
updated trailing stop with reason Stop, regardless of target or signal. -/
theorem checkPositionExit_stop_case (er : ExitRulesSig) (df : ℕ → Row)
    (idx : ℕ) (s : EngineState) (p : Position)
    (hp : s.currentPosition = some p)
    (h1 : BacktestEngine.hitStop df idx p.type
      (er.calculate_trailing_stop df idx p.type p.entry_price) = true) :
    (BacktestEngine.checkPositionExit er df idx s).trades =
      s.trades ++ [BacktestEngine.closedTrade p
        (er.calculate_trailing_stop df idx p.type p.entry_price) idx .Stop] := by
  simp [BacktestEngine.checkPositionExit, hp, h1, BacktestEngine.closePosition,
    BacktestEngine.closedTrade, BacktestEngine.tradePnl]

/-- Target-hit case of `_check_position_exit` when the stop is not hit. -/
theorem checkPositionExit_target_case (er : ExitRulesSig) (df : ℕ → Row)
    (idx : ℕ) (s : EngineState) (p : Position)
    (hp : s.currentPosition = some p)
    (h1 : BacktestEngine.hitStop df idx p.type
      (er.calculate_trailing_stop df idx p.type p.entry_price) = false)
    (h2 : BacktestEngine.hitTarget df idx p.type p.take_profit = true) :
    (BacktestEngine.checkPositionExit er df idx s).trades =
      s.trades ++ [BacktestEngine.closedTrade p p.take_profit idx .Target] := by
  simp [BacktestEngine.checkPositionExit, hp, h1, h2,
    BacktestEngine.closePosition, BacktestEngine.closedTrade,
    BacktestEngine.tradePnl]

/-- Signal case of `_check_position_exit` when neither stop nor target hit. -/
theorem checkPositionExit_signal_case (er : ExitRulesSig) (df : ℕ → Row)
    (idx : ℕ) (s : EngineState) (p : Position)
    (hp : s.currentPosition = some p)
    (h1 : BacktestEngine.hitStop df idx p.type
      (er.calculate_trailing_stop df idx p.type p.entry_price) = false)
    (h2 : BacktestEngine.hitTarget df idx p.type p.take_profit = false)
    (h3 : er.check_exit_signals df idx p.type = true) :
    (BacktestEngine.checkPositionExit er df idx s).trades =
      s.trades ++ [BacktestEngine.closedTrade p (df idx).Close idx .Signal] := by
  simp [BacktestEngine.checkPositionExit, hp, h1, h2, h3,
    BacktestEngine.closePosition, BacktestEngine.closedTrade,
    BacktestEngine.tradePnl]

/-- Stop-priority fixture bar: Low 94 and High 112 on bar 1, Close 100,
ATR 5/3 (so the recomputed trailing stop is exactly 95). -/
def stopPriorityDf : ℕ → Row :=
  fun i => if i = 0 then mkRow 100 100 100 100
           else { mkRow 100 112 94 100 with ATR := 5/3 }

/-- Open long for the stop-priority scenario: entry 95, take_profit 110. -/
def stopPriorityPos : Position :=
  { type := .long, entry_price := 95, entry_time := 0, size := 1,
    stop_loss := 95, take_profit := 110, trailing_stop := 95, trade_id := 1 }

/-- Engine state holding `stopPriorityPos` open with an empty ledger. -/
def stopPriorityState : EngineState :=
  { equity := 100000, currentPosition := some stopPriorityPos, trades := [],
    equityCurve := [], tradeCount := 1 }

/-- On bar 1 of `stopPriorityDf` the updated trailing stop for the open
long is 95, and both the stop (Low 94 ≤ 95) and the target
(High 112 ≥ 110) are hit. -/
theorem stopPriority_values :
    concreteExitRules.calculate_trailing_stop stopPriorityDf 1
      stopPriorityPos.type stopPriorityPos.entry_price = 95 ∧
    BacktestEngine.hitStop stopPriorityDf 1 stopPriorityPos.type 95 = true ∧
    BacktestEngine.hitTarget stopPriorityDf 1 stopPriorityPos.type
      stopPriorityPos.take_profit = true := by
  refine ⟨?_, ?_, ?_⟩
  · show ExitRules.calculate_trailing_stop stopPriorityDf 1 .long 95 = 95
    simp only [ExitRules.calculate_trailing_stop, ExitRules.trail_level,
      VolatilityIndicators.stop_distance, VolatilityIndicators.minimum_atr_value,
      VolatilityIndicators.regime_multipliers, stopPriorityDf, mkRow]
    norm_num
  · show BacktestEngine.hitStop stopPriorityDf 1 .long 95 = true
    simp only [BacktestEngine.hitStop, stopPriorityDf, mkRow, decide_eq_true_eq]
    norm_num
  · show BacktestEngine.hitTarget stopPriorityDf 1 .long 110 = true
    simp only [BacktestEngine.hitTarget, stopPriorityDf, mkRow, decide_eq_true_eq]
    norm_num

/-- Claim C1: while a position is open, same-bar exit conflicts resolve with
priority stop > target > signal, and the recorded exit price is the updated
trailing stop on a stop exit, the take_profit on a target exit, and the bar
Close on a signal exit; in the scenario with updated trailing stop 95,
take_profit 110, bar Low 94 / High 112 (stop and target both hit), the
trade is recorded with exit_reason Stop and exit_price 95. -/
theorem exit_priority (er : ExitRulesSig) (df : ℕ → Row) (idx : ℕ)
    (s : EngineState) (p : Position) (nts : ℚ)
    (hp : s.currentPosition = some p)
    (hnts : nts = er.calculate_trailing_stop df idx p.type p.entry_price) :
    (BacktestEngine.hitStop df idx p.type nts = true →
      (BacktestEngine.checkPositionExit er df idx s).trades =
        s.trades ++ [BacktestEngine.closedTrade p nts idx .Stop]) ∧
    (BacktestEngine.hitStop df idx p.type nts = false →
     BacktestEngine.hitTarget df idx p.type p.take_profit = true →
      (BacktestEngine.checkPositionExit er df idx s).trades =
        s.trades ++ [BacktestEngine.closedTrade p p.take_profit idx .Target]) ∧
    (BacktestEngine.hitStop df idx p.type nts = false →
     BacktestEngine.hitTarget df idx p.type p.take_profit = false →
     er.check_exit_signals df idx p.type = true →
      (BacktestEngine.checkPositionExit er df idx s).trades =
        s.trades ++ [BacktestEngine.closedTrade p (df idx).Close idx .Signal]) ∧
    (BacktestEngine.checkPositionExit concreteExitRules stopPriorityDf 1
        stopPriorityState).trades =
      [BacktestEngine.closedTrade stopPriorityPos 95 1 .Stop] ∧
    (BacktestEngine.closedTrade stopPriorityPos 95 1 .Stop).exit_reason = .Stop ∧
    (BacktestEngine.closedTrade stopPriorityPos 95 1 .Stop).exit_price = 95 := by
  subst hnts
  obtain ⟨hv1, hv2, hv3⟩ := stopPriority_values
  refine ⟨fun h1 => checkPositionExit_stop_case er df idx s p hp h1,
    fun h1 h2 => checkPositionExit_target_case er df idx s p hp h1 h2,
    fun h1 h2 h3 => checkPositionExit_signal_case er df idx s p hp h1 h2 h3,
    ?_, rfl, rfl⟩
  have hsc := checkPositionExit_stop_case concreteExitRules stopPriorityDf 1
    stopPriorityState stopPriorityPos rfl (by rw [hv1]; exact hv2)
  rw [hsc, hv1]
  rfl

/-- Witness: the exit-priority theorem applied at the stop scenario — with
trailing stop 95 the stop branch fires and the trade is appended with exit
price 95 and reason Stop. -/
theorem exit_priority_witness :
    (BacktestEngine.checkPositionExit concreteExitRules stopPriorityDf 1
        stopPriorityState).trades =
      stopPriorityState.trades ++
        [BacktestEngine.closedTrade stopPriorityPos 95 1 ExitReason.Stop] :=
  (exit_priority concreteExitRules stopPriorityDf 1 stopPriorityState
    stopPriorityPos 95 rfl stopPriority_values.1.symm).1 stopPriority_values.2.1

/-- Claim C3 (code bug): a run that opens no trades (here: 5 bars, fewer
than the 20-bar warm-up) leaves an empty ledger, and `_generate_results`
then divides by `len(self.trades) = 0` in the `win_rate` entry — a
`ZeroDivisionError` (modelled as `none`) instead of the well-defined
neutral summary the specification requires. -/
theorem zero_trades_results_fail :
    (BacktestEngine.run quietEntryRules concreteExitRules flatDf 1
      100000 5 flatStart).trades = [] ∧
    BacktestEngine.generateResults 100000
      (BacktestEngine.run quietEntryRules concreteExitRules flatDf 1
        100000 5 flatStart) = none := by
  have htr : (BacktestEngine.run quietEntryRules concreteExitRules flatDf
      1 100000 5 flatStart).trades = [] :=
    (foldl_warmup quietEntryRules concreteExitRules flatDf 1
      (List.range 5) (BacktestEngine.reset 100000 flatStart)
      (fun i hi => by have := List.mem_range.mp hi; omega) rfl rfl).2
  refine ⟨htr, ?_⟩
  simp [BacktestEngine.generateResults, htr]

/-- Witness: the dynamic-stop formula at bar 1 of `stopScenarioDf`
(ATR 2, High regime): stop distance 3, take-profit distance 6. -/
theorem dynamic_stops_formula_witness :
    VolatilityIndicators.get_dynamic_stops stopScenarioDf 1 2 =
      some (max (stopScenarioDf 1).ATR (1/1000) * 2 *
        (match (stopScenarioDf 1).Volatility_Regime with
         | .low => (3 : ℚ)/2 | .normal => 1 | .high => 3/4),
        2 * (max (stopScenarioDf 1).ATR (1/1000) * 2 *
        (match (stopScenarioDf 1).Volatility_Regime with
         | .low => (3 : ℚ)/2 | .normal => 1 | .high => 3/4))) ∧
    VolatilityIndicators.get_dynamic_stops stopScenarioDf 1 = some (3, 6) :=
  ⟨(dynamic_stops_formula stopScenarioDf 1 2 (le_refl 1)).1,
   (dynamic_stops_formula stopScenarioDf 1 2 (le_refl 1)).2.2.2⟩

/-- Witness: the accounting identity on a concrete 5-bar run, and the
equity-unchanged-without-close implication discharged on bar 0 (no trade
is appended, so equity is unchanged). -/
theorem equity_accounting_witness :
    (BacktestEngine.run quietEntryRules concreteExitRules flatDf 1 100000 5
      flatStart).equity =
      100000 + (((BacktestEngine.run quietEntryRules concreteExitRules flatDf
        1 100000 5 flatStart).trades.map (fun t => t.pnl)).sum) ∧
    ((BacktestEngine.processBar quietEntryRules concreteExitRules flatDf 0 1
      flatStart).1).equity = flatStart.equity :=
  ⟨(equity_accounting quietEntryRules concreteExitRules flatDf 1 100000 5
      flatStart).1,
   (equity_accounting quietEntryRules concreteExitRules flatDf 1 100000 5
      flatStart).2.2 0 flatStart rfl⟩
